import Mathlib

/-
Verification of the parameter-container module `src/py21cmfast/inputs.py`
(classes CosmoParams, UserParams, FlagOptions, AstroParams).

Python scalar inputs that can reach the enumerated getters are modelled by
`PyVal` (ints, floats, strings); floats are modelled exactly as rationals,
since the code only truncates and compares them (no float arithmetic).
Errors raised by the getters are modelled by `Except PyErr`.
-/

namespace Inputs21

/-- Error kinds raised by the validation code. -/
inductive PyErr
  | valueError
  | typeError
deriving DecidableEq, Repr

/-- A Python scalar value as it can be supplied for an enumerated field. -/
inductive PyVal
  | int (n : ℤ)
  | float (q : ℚ)
  | str (s : String)
deriving DecidableEq, Repr

instance {ε α : Type} [DecidableEq ε] [DecidableEq α] :
    DecidableEq (Except ε α) := fun x y =>
  match x, y with
  | .error a, .error b =>
    if h : a = b then .isTrue (h ▸ rfl)
    else .isFalse (fun hc => h (Except.error.inj hc))
  | .ok a, .ok b =>
    if h : a = b then .isTrue (h ▸ rfl)
    else .isFalse (fun hc => h (Except.ok.inj hc))
  | .error _, .ok _ => .isFalse (fun hc => Except.noConfusion hc)
  | .ok _, .error _ => .isFalse (fun hc => Except.noConfusion hc)

/-- Python `int()` on a float: truncation toward zero (the rational is
normalised, so its denominator is positive and `Int.tdiv num den` — the
T-division that rounds toward zero, unlike the Euclidean `/` — matches
Python exactly, e.g. `int(-0.5) = 0` and `int(2.5) = 2`). -/
def pyTrunc (q : ℚ) : ℤ := Int.tdiv q.num (q.den : ℤ)

/-- Python `str.upper()` (the names involved are ASCII, where upper-casing
is per-character). -/
def pyUpper (s : String) : String := String.mk (s.data.map Char.toUpper)

/-- Python `list.index`: index of the first occurrence, `none` when absent
(where Python raises ValueError). -/
def pyIndex (l : List String) (s : String) : Option ℕ :=
  match l with
  | [] => none
  | t :: rest => if t == s then some 0 else (pyIndex rest s).map (· + 1)

/-- `UserParams._hmf_models` (inputs.py line 349). -/
def hmf_models : List String := [r"PS", r"ST", r"WATSON", r"WATSON-Z"]

/-- `UserParams._power_models` (inputs.py line 350). -/
def power_models : List String :=
  [r"EH", r"BBKS", r"EFSTATHIOU", r"PEEBLES", r"WHITE", r"CLASS"]

/-- The final range check of the `UserParams.HMF` property:
`0 <= val < len(self._hmf_models)` on the already-`int()`-converted
value. -/
def HMF_check (n : ℤ) : Except PyErr ℤ :=
  if 0 ≤ n ∧ n < (hmf_models.length : ℤ) then .ok n else .error .valueError

/-- The body of the `UserParams.HMF` property (inputs.py lines 399-420):
a string is upper-cased and looked up in `hmf_models` (`list.index` raises
ValueError when absent); then `int(val)` is taken — an integer is kept,
a float is truncated toward zero, with a failure re-raised as ValueError —
and finally the value must lie in `[0, len(hmf_models))`. -/
def HMF_get (raw : PyVal) : Except PyErr ℤ :=
  match raw with
  | .str s =>
    match pyIndex hmf_models (pyUpper s) with
    | some i => HMF_check (i : ℤ)
    | none => .error .valueError
  | .int n => HMF_check n
  | .float q => HMF_check (pyTrunc q)

/-- The range check of the `UserParams.POWER_SPECTRUM` property,
`0 <= val < len(self._power_models)`, on the un-coerced value: an integer
or float is compared numerically and returned unchanged when in range
(the code applies no `int()` here); comparing a string against 0 would
raise TypeError in Python (this branch is unreachable, since strings are
replaced by their list index before the check). -/
def PS_check (v : PyVal) : Except PyErr PyVal :=
  match v with
  | .int n =>
    if 0 ≤ n ∧ n < (power_models.length : ℤ) then .ok v
    else .error .valueError
  | .float q =>
    if 0 ≤ q ∧ q < (power_models.length : ℚ) then .ok v
    else .error .valueError
  | .str _ => .error .typeError

/-- The body of the `UserParams.POWER_SPECTRUM` property (inputs.py lines
367-397).  When `USE_RELATIVE_VELOCITIES` is true the getter returns 5
before any validation (only a warning may be logged).  Otherwise a string
is upper-cased and looked up in `power_models` (`list.index` raises
ValueError when absent), a non-string is used as is, and the resulting
value is range-checked by `PS_check`. -/
def POWER_SPECTRUM_get (use_rel_vel : Bool) (raw : PyVal) :
    Except PyErr PyVal :=
  if use_rel_vel then .ok (.int 5)
  else
    match raw with
    | .str s =>
      match pyIndex power_models (pyUpper s) with
      | some i => PS_check (.int (i : ℤ))
      | none => .error .valueError
    | v => PS_check v

/-- An astrophysical parameter value.  A float input is a rational; `10 **
val` (the log10-to-linear conversion of `AstroParams.convert`) is kept
symbolically as `tenPow`, which is faithful for the equalities used here:
ten-to-the-power is injective and `10 ^ x` never equals `x` or `10 ^ 10 ^ x`
for a real `x`, and is never zero (so it is always truthy). -/
inductive AVal
  | rat (q : ℚ)
  | tenPow (v : AVal)
deriving DecidableEq, Repr

/-- Field names of `AstroParams` (`_defaults_` keys, inputs.py lines
557-572). -/
inductive AField
  | HII_EFF_FACTOR
  | F_STAR10
  | ALPHA_STAR
  | F_ESC10
  | ALPHA_ESC
  | M_TURN
  | R_BUBBLE_MAX
  | ION_Tvir_MIN
  | L_X
  | NU_X_THRESH
  | X_RAY_SPEC_INDEX
  | X_RAY_Tvir_MIN
  | t_STAR
  | N_RSD_STEPS
deriving DecidableEq, Repr

/-- The list of keys converted from log10 units in `AstroParams.convert`
(inputs.py lines 584-591). -/
def logFields : List AField :=
  [.F_STAR10, .F_ESC10, .M_TURN, .ION_Tvir_MIN, .L_X, .X_RAY_Tvir_MIN]

/-- `AstroParams.convert` (inputs.py lines 582-594): keys in `logFields`
become `10 ** val`; every other value is returned unchanged. -/
def convert (key : AField) (val : AVal) : AVal :=
  if key ∈ logFields then .tenPow val else val

/-- Python truthiness of an optional int attribute (`None` and `0` are
falsy). -/
def truthyInt : Option ℤ → Bool
  | none => false
  | some n => n != 0

/-- Python truthiness of an optional float attribute (`None` and `0.0` are
falsy). -/
def truthyRat : Option ℚ → Bool
  | none => false
  | some q => q != 0

/-- Python truthiness of an optional `AVal` attribute: `10 ** x` is always
positive, hence truthy. -/
def truthyA : Option AVal → Bool
  | none => false
  | some (.rat q) => q != 0
  | some (.tenPow _) => true

/-- The state of a constructed `UserParams` instance: plain attributes hold
their resolved (supplied-or-default) values, property-backed attributes
keep the raw supplied value in a hidden slot (`none` models Python `None`).
Field set from `UserParams._defaults_` (inputs.py lines 339-347). -/
structure UserParams where
  BOX_LEN : ℚ
  _DIM : Option ℤ
  HII_DIM : ℤ
  USE_FFTW_WISDOM : Bool
  _HMF : PyVal
  USE_RELATIVE_VELOCITIES : Bool
  _POWER_SPECTRUM : PyVal
deriving DecidableEq, Repr

/-- Constructor arguments for `UserParams`; `none` means the option was not
supplied (for `DIM`, supplying `None` explicitly is the same as omitting
it, since the default is `None`). -/
structure UserArgs where
  BOX_LEN : Option ℚ := none
  DIM : Option ℤ := none
  HII_DIM : Option ℤ := none
  USE_FFTW_WISDOM : Option Bool := none
  HMF : Option PyVal := none
  USE_RELATIVE_VELOCITIES : Option Bool := none
  POWER_SPECTRUM : Option PyVal := none
deriving DecidableEq, Repr

/-- Modelled from the spec: construction stores each documented option,
falling back to the `_defaults_` entry when the option is omitted (the
defaulting loop lives in `_utils.StructWithDefaults`, which is not part of
this excerpt; the default values themselves are `UserParams._defaults_`,
inputs.py lines 339-347). -/
def userConstruct (a : UserArgs) : UserParams :=
  { BOX_LEN := a.BOX_LEN.getD 150
    _DIM := a.DIM
    HII_DIM := a.HII_DIM.getD 50
    USE_FFTW_WISDOM := a.USE_FFTW_WISDOM.getD false
    _HMF := a.HMF.getD (.int 1)
    USE_RELATIVE_VELOCITIES := a.USE_RELATIVE_VELOCITIES.getD false
    _POWER_SPECTRUM := a.POWER_SPECTRUM.getD (.int 0) }

/-- The `UserParams.DIM` property (inputs.py lines 352-355):
`self._DIM or 4 * self.HII_DIM`, evaluated at every access. -/
def UserParams.DIM_read (p : UserParams) : ℤ :=
  if truthyInt p._DIM then p._DIM.getD 0 else 4 * p.HII_DIM

/-- The `UserParams.HMF` property applied to the instance state. -/
def UserParams.HMF_read (p : UserParams) : Except PyErr ℤ :=
  HMF_get p._HMF

/-- The `UserParams.POWER_SPECTRUM` property applied to the instance
state. -/
def UserParams.POWER_SPECTRUM_read (p : UserParams) : Except PyErr PyVal :=
  POWER_SPECTRUM_get p.USE_RELATIVE_VELOCITIES p._POWER_SPECTRUM

/-- Modelled from the spec: the dictionary-like snapshot of a `UserParams`
instance (the `_utils` base class, absent from this excerpt, exposes a
dictionary of the instance's fields built from the hidden raw value of each
property-backed field and the stored value of each plain field). -/
def UserParams.snapshot (p : UserParams) : UserArgs :=
  { BOX_LEN := some p.BOX_LEN
    DIM := p._DIM
    HII_DIM := some p.HII_DIM
    USE_FFTW_WISDOM := some p.USE_FFTW_WISDOM
    HMF := some p._HMF
    USE_RELATIVE_VELOCITIES := some p.USE_RELATIVE_VELOCITIES
    POWER_SPECTRUM := some p._POWER_SPECTRUM }

/-- The state of a constructed `FlagOptions` instance (`_defaults_` keys,
inputs.py lines 469-476; `M_MIN_in_Mass` is property-backed). -/
structure FlagOptions where
  USE_MASS_DEPENDENT_ZETA : Bool
  SUBCELL_RSD : Bool
  INHOMO_RECO : Bool
  USE_TS_FLUCT : Bool
  _M_MIN_in_Mass : Bool
  PHOTON_CONS : Bool
deriving DecidableEq, Repr

/-- Constructor arguments for `FlagOptions`. -/
structure FlagArgs where
  USE_MASS_DEPENDENT_ZETA : Option Bool := none
  SUBCELL_RSD : Option Bool := none
  INHOMO_RECO : Option Bool := none
  USE_TS_FLUCT : Option Bool := none
  M_MIN_in_Mass : Option Bool := none
  PHOTON_CONS : Option Bool := none
deriving DecidableEq, Repr

/-- Modelled from the spec: construction with `FlagOptions._defaults_`
(inputs.py lines 469-476; all flags default to False). -/
def flagConstruct (a : FlagArgs) : FlagOptions :=
  { USE_MASS_DEPENDENT_ZETA := a.USE_MASS_DEPENDENT_ZETA.getD false
    SUBCELL_RSD := a.SUBCELL_RSD.getD false
    INHOMO_RECO := a.INHOMO_RECO.getD false
    USE_TS_FLUCT := a.USE_TS_FLUCT.getD false
    _M_MIN_in_Mass := a.M_MIN_in_Mass.getD false
    PHOTON_CONS := a.PHOTON_CONS.getD false }

/-- The `FlagOptions.M_MIN_in_Mass` property (inputs.py lines 478-485):
True whenever `USE_MASS_DEPENDENT_ZETA` is True, otherwise the stored
value. -/
def FlagOptions.M_MIN_in_Mass_read (f : FlagOptions) : Bool :=
  if f.USE_MASS_DEPENDENT_ZETA then true else f._M_MIN_in_Mass

/-- Modelled from the spec: the dictionary-like snapshot of a `FlagOptions`
instance. -/
def FlagOptions.snapshot (f : FlagOptions) : FlagArgs :=
  { USE_MASS_DEPENDENT_ZETA := some f.USE_MASS_DEPENDENT_ZETA
    SUBCELL_RSD := some f.SUBCELL_RSD
    INHOMO_RECO := some f.INHOMO_RECO
    USE_TS_FLUCT := some f.USE_TS_FLUCT
    M_MIN_in_Mass := some f._M_MIN_in_Mass
    PHOTON_CONS := some f.PHOTON_CONS }

/-- The state of a constructed `CosmoParams` instance (`_defaults_` keys,
inputs.py lines 278-284). -/
structure CosmoParams where
  SIGMA_8 : ℚ
  hlittle : ℚ
  OMm : ℚ
  OMb : ℚ
  POWER_INDEX : ℚ
deriving DecidableEq, Repr

/-- Constructor arguments for `CosmoParams`. -/
structure CosmoArgs where
  SIGMA_8 : Option ℚ := none
  hlittle : Option ℚ := none
  OMm : Option ℚ := none
  OMb : Option ℚ := none
  POWER_INDEX : Option ℚ := none
deriving DecidableEq, Repr

/-- Modelled from the spec: construction with `CosmoParams._defaults_`
(inputs.py lines 278-284; `hlittle`, `OMm` and `OMb` default to astropy's
Planck15 values h = 0.6774, Om0 = 0.3089, Ob0 = 0.0486). -/
def cosmoConstruct (a : CosmoArgs) : CosmoParams :=
  { SIGMA_8 := a.SIGMA_8.getD (mkRat 82 100)
    hlittle := a.hlittle.getD (mkRat 6774 10000)
    OMm := a.OMm.getD (mkRat 3089 10000)
    OMb := a.OMb.getD (mkRat 486 10000)
    POWER_INDEX := a.POWER_INDEX.getD (mkRat 97 100) }

/-- Modelled from the spec: the dictionary-like snapshot of a
`CosmoParams` instance. -/
def CosmoParams.snapshot (c : CosmoParams) : CosmoArgs :=
  { SIGMA_8 := some c.SIGMA_8
    hlittle := some c.hlittle
    OMm := some c.OMm
    OMb := some c.OMb
    POWER_INDEX := some c.POWER_INDEX }

/-- The state of a constructed `AstroParams` instance.  `INHOMO_RECO` is
the extra constructor keyword of `AstroParams.__init__` (inputs.py lines
574-580); the remaining attributes are the `_defaults_` keys (lines
557-572), holding the supplied-or-default input in log10 units for the
fields converted by `AstroParams.convert` (reads expose the converted
value; the spec states such fields are "stored internally in one unit and
exposed in another").  `R_BUBBLE_MAX` and `X_RAY_Tvir_MIN` default to
`None` and are property-backed. -/
structure AstroParams where
  INHOMO_RECO : Bool
  HII_EFF_FACTOR : ℚ
  F_STAR10 : ℚ
  ALPHA_STAR : ℚ
  F_ESC10 : ℚ
  ALPHA_ESC : ℚ
  M_TURN : ℚ
  _R_BUBBLE_MAX : Option ℚ
  ION_Tvir_MIN : ℚ
  L_X : ℚ
  NU_X_THRESH : ℚ
  X_RAY_SPEC_INDEX : ℚ
  _X_RAY_Tvir_MIN : Option ℚ
  t_STAR : ℚ
  N_RSD_STEPS : ℚ
deriving DecidableEq, Repr

/-- Constructor arguments for `AstroParams` (the astro-parameter fields;
`INHOMO_RECO` is a separate constructor keyword, not an astro field). -/
structure AstroArgs where
  HII_EFF_FACTOR : Option ℚ := none
  F_STAR10 : Option ℚ := none
  ALPHA_STAR : Option ℚ := none
  F_ESC10 : Option ℚ := none
  ALPHA_ESC : Option ℚ := none
  M_TURN : Option ℚ := none
  R_BUBBLE_MAX : Option ℚ := none
  ION_Tvir_MIN : Option ℚ := none
  L_X : Option ℚ := none
  NU_X_THRESH : Option ℚ := none
  X_RAY_SPEC_INDEX : Option ℚ := none
  X_RAY_Tvir_MIN : Option ℚ := none
  t_STAR : Option ℚ := none
  N_RSD_STEPS : Option ℚ := none
deriving DecidableEq, Repr

/-- Modelled from the spec: construction stores each supplied option,
falling back to `AstroParams._defaults_` (inputs.py lines 557-572; [[the
defaulting loop is in the `_utils` base class, absent from this excerpt]]).
`ION_Tvir_MIN` defaults to 4.69897, i.e. 469897/100000. -/
def astroConstruct (inh : Bool) (a : AstroArgs) : AstroParams :=
  { INHOMO_RECO := inh
    HII_EFF_FACTOR := a.HII_EFF_FACTOR.getD 30
    F_STAR10 := a.F_STAR10.getD (mkRat (-13) 10)
    ALPHA_STAR := a.ALPHA_STAR.getD (mkRat 1 2)
    F_ESC10 := a.F_ESC10.getD (-1)
    ALPHA_ESC := a.ALPHA_ESC.getD (mkRat (-1) 2)
    M_TURN := a.M_TURN.getD (mkRat 87 10)
    _R_BUBBLE_MAX := a.R_BUBBLE_MAX
    ION_Tvir_MIN := a.ION_Tvir_MIN.getD (mkRat 469897 100000)
    L_X := a.L_X.getD 40
    NU_X_THRESH := a.NU_X_THRESH.getD 500
    X_RAY_SPEC_INDEX := a.X_RAY_SPEC_INDEX.getD 1
    _X_RAY_Tvir_MIN := a.X_RAY_Tvir_MIN
    t_STAR := a.t_STAR.getD (mkRat 1 2)
    N_RSD_STEPS := a.N_RSD_STEPS.getD 20 }

/-- Read of a plain (non-property) astro attribute: the value exposed to a
consumer is `convert key input` (the spec requires the log10-to-linear
conversion of `AstroParams.convert` to be applied exactly once and be
visible to every downstream read). -/
def AstroParams.HII_EFF_FACTOR_read (p : AstroParams) : AVal :=
  convert .HII_EFF_FACTOR (.rat p.HII_EFF_FACTOR)

/-- Read of `F_STAR10` (a log10-unit field). -/
def AstroParams.F_STAR10_read (p : AstroParams) : AVal :=
  convert .F_STAR10 (.rat p.F_STAR10)

/-- Read of `ALPHA_STAR`. -/
def AstroParams.ALPHA_STAR_read (p : AstroParams) : AVal :=
  convert .ALPHA_STAR (.rat p.ALPHA_STAR)

/-- Read of `F_ESC10` (a log10-unit field). -/
def AstroParams.F_ESC10_read (p : AstroParams) : AVal :=
  convert .F_ESC10 (.rat p.F_ESC10)

/-- Read of `ALPHA_ESC`. -/
def AstroParams.ALPHA_ESC_read (p : AstroParams) : AVal :=
  convert .ALPHA_ESC (.rat p.ALPHA_ESC)

/-- Read of `M_TURN` (a log10-unit field). -/
def AstroParams.M_TURN_read (p : AstroParams) : AVal :=
  convert .M_TURN (.rat p.M_TURN)

/-- Read of `ION_Tvir_MIN` (a log10-unit field). -/
def AstroParams.ION_Tvir_MIN_read (p : AstroParams) : AVal :=
  convert .ION_Tvir_MIN (.rat p.ION_Tvir_MIN)

/-- Read of `L_X` (a log10-unit field). -/
def AstroParams.L_X_read (p : AstroParams) : AVal :=
  convert .L_X (.rat p.L_X)

/-- Read of `NU_X_THRESH`. -/
def AstroParams.NU_X_THRESH_read (p : AstroParams) : AVal :=
  convert .NU_X_THRESH (.rat p.NU_X_THRESH)

/-- Read of `X_RAY_SPEC_INDEX`. -/
def AstroParams.X_RAY_SPEC_INDEX_read (p : AstroParams) : AVal :=
  convert .X_RAY_SPEC_INDEX (.rat p.X_RAY_SPEC_INDEX)

/-- Read of `t_STAR`. -/
def AstroParams.t_STAR_read (p : AstroParams) : AVal :=
  convert .t_STAR (.rat p.t_STAR)

/-- Read of `N_RSD_STEPS`. -/
def AstroParams.N_RSD_STEPS_read (p : AstroParams) : AVal :=
  convert .N_RSD_STEPS (.rat p.N_RSD_STEPS)

/-- The converted stored value behind the `X_RAY_Tvir_MIN` property
(`self._X_RAY_Tvir_MIN`; `none` when the field is unset). -/
def AstroParams.X_RAY_Tvir_MIN_stored (p : AstroParams) : Option AVal :=
  p._X_RAY_Tvir_MIN.map (fun q => convert .X_RAY_Tvir_MIN (.rat q))

/-- The `AstroParams.X_RAY_Tvir_MIN` property (inputs.py lines 610-613):
`self._X_RAY_Tvir_MIN if self._X_RAY_Tvir_MIN else self.ION_Tvir_MIN`. -/
def AstroParams.X_RAY_Tvir_MIN_read (p : AstroParams) : AVal :=
  if truthyA p.X_RAY_Tvir_MIN_stored then
    p.X_RAY_Tvir_MIN_stored.getD (.rat 0)
  else p.ION_Tvir_MIN_read

/-- The `AstroParams.R_BUBBLE_MAX` property (inputs.py lines 596-608),
returning the value together with whether the non-standard-override
warning is logged: a falsy stored value (`None` or `0`) yields the
`INHOMO_RECO`-dependent default with no warning; otherwise the stored
value is returned, warning exactly when `INHOMO_RECO` holds and the value
differs from 50. -/
def AstroParams.R_BUBBLE_MAX_pair (p : AstroParams) : AVal × Bool :=
  if truthyRat p._R_BUBBLE_MAX = false then
    ((if p.INHOMO_RECO then .rat 50 else .rat 15), false)
  else
    (.rat (p._R_BUBBLE_MAX.getD 0),
      p.INHOMO_RECO && (p._R_BUBBLE_MAX.getD 0 != 50))

/-- The value returned by reading `R_BUBBLE_MAX`. -/
def AstroParams.R_BUBBLE_MAX_read (p : AstroParams) : AVal :=
  p.R_BUBBLE_MAX_pair.1

/-- Whether reading `R_BUBBLE_MAX` logs the non-standard-override
warning. -/
def AstroParams.R_BUBBLE_MAX_warns (p : AstroParams) : Bool :=
  p.R_BUBBLE_MAX_pair.2

/-- Modelled from the spec: the dictionary-like snapshot of an
`AstroParams` instance — the astro-parameter fields only.  `INHOMO_RECO`
is excluded: the source states it "is not a part of the astro parameters
structure" (inputs.py lines 498-500) and it is not a `_defaults_` key. -/
def AstroParams.snapshot (p : AstroParams) : AstroArgs :=
  { HII_EFF_FACTOR := some p.HII_EFF_FACTOR
    F_STAR10 := some p.F_STAR10
    ALPHA_STAR := some p.ALPHA_STAR
    F_ESC10 := some p.F_ESC10
    ALPHA_ESC := some p.ALPHA_ESC
    M_TURN := some p.M_TURN
    R_BUBBLE_MAX := p._R_BUBBLE_MAX
    ION_Tvir_MIN := some p.ION_Tvir_MIN
    L_X := some p.L_X
    NU_X_THRESH := some p.NU_X_THRESH
    X_RAY_SPEC_INDEX := some p.X_RAY_SPEC_INDEX
    X_RAY_Tvir_MIN := p._X_RAY_Tvir_MIN
    t_STAR := some p.t_STAR
    N_RSD_STEPS := some p.N_RSD_STEPS }

/-- `AstroParams._defaults_` as written in the source (inputs.py lines
557-572); `none` renders the Python `None` entries.  The class
documentation designates this table as the documented default of each
field ("To see default values for each parameter, use
`AstroParams._defaults_`"). -/
def astroDefaultsTable : AField → Option ℚ
  | .HII_EFF_FACTOR => some 30
  | .F_STAR10 => some (mkRat (-13) 10)
  | .ALPHA_STAR => some (mkRat 1 2)
  | .F_ESC10 => some (-1)
  | .ALPHA_ESC => some (mkRat (-1) 2)
  | .M_TURN => some (mkRat 87 10)
  | .R_BUBBLE_MAX => none
  | .ION_Tvir_MIN => some (mkRat 469897 100000)
  | .L_X => some 40
  | .NU_X_THRESH => some 500
  | .X_RAY_SPEC_INDEX => some 1
  | .X_RAY_Tvir_MIN => none
  | .t_STAR => some (mkRat 1 2)
  | .N_RSD_STEPS => some 20

/-- Option names accepted by the `CosmoParams` constructor: the keys of
`CosmoParams._defaults_` (inputs.py lines 278-284). -/
def cosmoAcceptedKeys : List String :=
  [r"SIGMA_8", r"hlittle", r"OMm", r"OMb", r"POWER_INDEX"]

/-- Field names documented in the `CosmoParams` class docstring
(inputs.py lines 262-274). -/
def cosmoDocumentedFields : List String :=
  [r"SIGMA_8", r"hlittle", r"OMm", r"OMb", r"POWER_INDEX"]

/-- Option names accepted by the `UserParams` constructor: the keys of
`UserParams._defaults_` (inputs.py lines 339-347). -/
def userAcceptedKeys : List String :=
  [r"BOX_LEN", r"DIM", r"HII_DIM", r"USE_FFTW_WISDOM", r"HMF",
    r"USE_RELATIVE_VELOCITIES", r"POWER_SPECTRUM"]

/-- Field names documented in the `UserParams` class docstring (inputs.py
lines 305-335); `USE_FFTW_WISDOM` has no entry there. -/
def userDocumentedFields : List String :=
  [r"HII_DIM", r"DIM", r"BOX_LEN", r"HMF", r"USE_RELATIVE_VELOCITIES",
    r"POWER_SPECTRUM"]

/-- Option names accepted by the `FlagOptions` constructor: the keys of
`FlagOptions._defaults_` (inputs.py lines 469-476). -/
def flagAcceptedKeys : List String :=
  [r"USE_MASS_DEPENDENT_ZETA", r"SUBCELL_RSD", r"INHOMO_RECO",
    r"USE_TS_FLUCT", r"M_MIN_in_Mass", r"PHOTON_CONS"]

/-- Field names documented in the `FlagOptions` class docstring (inputs.py
lines 444-465); the docstring spells the sub-cell
redshift-space-distortion flag `SUBCELL_RSDS`, while `_defaults_` accepts
`SUBCELL_RSD`. -/
def flagDocumentedFields : List String :=
  [r"USE_MASS_DEPENDENT_ZETA", r"SUBCELL_RSDS", r"INHOMO_RECO",
    r"USE_TS_FLUCT", r"M_MIN_in_Mass", r"PHOTON_CONS"]

/-- Option names accepted by the `AstroParams` constructor: the keys of
`AstroParams._defaults_` (inputs.py lines 557-572) together with the
explicit `INHOMO_RECO` keyword of `AstroParams.__init__` (lines
574-580). -/
def astroAcceptedKeys : List String :=
  [r"INHOMO_RECO", r"HII_EFF_FACTOR", r"F_STAR10", r"ALPHA_STAR",
    r"F_ESC10", r"ALPHA_ESC", r"M_TURN", r"R_BUBBLE_MAX", r"ION_Tvir_MIN",
    r"L_X", r"NU_X_THRESH", r"X_RAY_SPEC_INDEX", r"X_RAY_Tvir_MIN",
    r"t_STAR", r"N_RSD_STEPS"]

/-- Field names documented in the `AstroParams` class docstring (inputs.py
lines 496-553). -/
def astroDocumentedFields : List String :=
  [r"INHOMO_RECO", r"HII_EFF_FACTOR", r"F_STAR10", r"ALPHA_STAR",
    r"F_ESC10", r"ALPHA_ESC", r"M_TURN", r"R_BUBBLE_MAX", r"ION_Tvir_MIN",
    r"L_X", r"NU_X_THRESH", r"X_RAY_SPEC_INDEX", r"X_RAY_Tvir_MIN",
    r"t_STAR", r"N_RSD_STEPS"]

/-- Modelled from the spec: the constructor of each parameter group
accepts a configuration dictionary and "unrecognized keys fail with a
configuration error" (the keyword loop lives in the `_utils` base class,
absent from this excerpt).  `true` means construction succeeds for the
given key list. -/
def constructKeysOK (accepted : List String) (ks : List String) : Bool :=
  ks.all (fun k => accepted.contains k)

/-- Equality of two key lists as sets of names. -/
def sameKeySet (l1 l2 : List String) : Bool :=
  l1.all (fun k => l2.contains k) && l2.all (fun k => l1.contains k)

theorem pyIndex_lt_length {l : List String} {s : String} {i : ℕ}
    (h : pyIndex l s = some i) : i < l.length := by
  induction l generalizing i with
  | nil => simp [pyIndex] at h
  | cons t rest ih =>
    rw [pyIndex] at h
    split at h
    · cases h
      simp
    · obtain ⟨j, hj, rfl⟩ := Option.map_eq_some'.mp h
      have := ih hj
      simp only [List.length_cons]
      omega

/-- C1 counterexample: the claim demands a ValueError for every
non-integer input, but a non-integer float is accepted — `HMF` truncates
2.5 to the valid code 2, and `POWER_SPECTRUM` returns 2.5 itself, since
its range check `0 <= val < 6` holds and no `int()` coercion is
applied. -/
theorem enum_float_accepted_cex :
    HMF_get (.float (mkRat 5 2)) = .ok 2 ∧
    POWER_SPECTRUM_get false (.float (mkRat 5 2)) = .ok (.float (mkRat 5 2)) := by
  decide

/-- C1 amended: for `HMF` and (with `USE_RELATIVE_VELOCITIES` off)
`POWER_SPECTRUM`, every recognized name maps case-insensitively to its
positional index, every in-range integer maps to itself, and unrecognized
strings and out-of-range values raise ValueError; however a float is not
rejected for being non-integral — `HMF` truncates it toward zero and
accepts the result when in range, and `POWER_SPECTRUM` returns an in-range
float unchanged. -/
theorem enum_fields_amended :
    (∀ s : String, ∀ i : ℕ, pyIndex hmf_models (pyUpper s) = some i →
      HMF_get (.str s) = .ok (i : ℤ)) ∧
    (∀ s : String, pyIndex hmf_models (pyUpper s) = none →
      HMF_get (.str s) = .error .valueError) ∧
    (∀ n : ℤ, 0 ≤ n → n < (hmf_models.length : ℤ) →
      HMF_get (.int n) = .ok n) ∧
    (∀ n : ℤ, n < 0 ∨ (hmf_models.length : ℤ) ≤ n →
      HMF_get (.int n) = .error .valueError) ∧
    (∀ q : ℚ, HMF_get (.float q) =
      if 0 ≤ pyTrunc q ∧ pyTrunc q < (hmf_models.length : ℤ) then
        .ok (pyTrunc q)
      else .error .valueError) ∧
    (∀ s : String, ∀ i : ℕ, pyIndex power_models (pyUpper s) = some i →
      POWER_SPECTRUM_get false (.str s) = .ok (.int (i : ℤ))) ∧
    (∀ s : String, pyIndex power_models (pyUpper s) = none →
      POWER_SPECTRUM_get false (.str s) = .error .valueError) ∧
    (∀ n : ℤ, 0 ≤ n → n < (power_models.length : ℤ) →
      POWER_SPECTRUM_get false (.int n) = .ok (.int n)) ∧
    (∀ n : ℤ, n < 0 ∨ (power_models.length : ℤ) ≤ n →
      POWER_SPECTRUM_get false (.int n) = .error .valueError) ∧
    (∀ q : ℚ, POWER_SPECTRUM_get false (.float q) =
      if 0 ≤ q ∧ q < (power_models.length : ℚ) then .ok (.float q)
      else .error .valueError) := by
  refine ⟨?_, ?_, ?_, ?_, ?_, ?_, ?_, ?_, ?_, ?_⟩
  · intro s i h
    have hb := pyIndex_lt_length h
    have hc : 0 ≤ (i : ℤ) ∧ (i : ℤ) < (hmf_models.length : ℤ) :=
      ⟨Int.natCast_nonneg i, by exact_mod_cast hb⟩
    simp [HMF_get, h, HMF_check, hc]
  · intro s h
    simp [HMF_get, h]
  · intro n h0 hl
    have hc : 0 ≤ n ∧ n < (hmf_models.length : ℤ) := ⟨h0, hl⟩
    simp [HMF_get, HMF_check, hc]
  · intro n h
    have hc : ¬(0 ≤ n ∧ n < (hmf_models.length : ℤ)) := by
      have hlen : (hmf_models.length : ℤ) = 4 := by rfl
      rw [hlen] at h ⊢
      omega
    simp [HMF_get, HMF_check, hc]
  · intro q
    rfl
  · intro s i h
    have hb := pyIndex_lt_length h
    have hc : 0 ≤ (i : ℤ) ∧ (i : ℤ) < (power_models.length : ℤ) :=
      ⟨Int.natCast_nonneg i, by exact_mod_cast hb⟩
    simp [POWER_SPECTRUM_get, h, PS_check, hc]
  · intro s h
    simp [POWER_SPECTRUM_get, h]
  · intro n h0 hl
    have hc : 0 ≤ n ∧ n < (power_models.length : ℤ) := ⟨h0, hl⟩
    simp [POWER_SPECTRUM_get, PS_check, hc]
  · intro n h
    have hc : ¬(0 ≤ n ∧ n < (power_models.length : ℤ)) := by
      have hlen : (power_models.length : ℤ) = 6 := by rfl
      rw [hlen] at h ⊢
      omega
    simp [POWER_SPECTRUM_get, PS_check, hc]
  · intro q
    rfl

/-- C1 amended, witnessed at concrete inputs: the lower-case name
"watson-z" maps to code 3, the in-range integer 2 maps to itself, and the
name "bbks" maps to code 1. -/
theorem enum_fields_amended_witness :
    HMF_get (.str (r"watson-z")) = .ok 3 ∧
    HMF_get (.int 2) = .ok 2 ∧
    HMF_get (.float (mkRat (-1) 2)) = .ok 0 ∧
    POWER_SPECTRUM_get false (.str (r"bbks")) = .ok (.int 1) := by
  refine ⟨?_, ?_, ?_, ?_⟩
  · exact enum_fields_amended.1 (r"watson-z") 3 (by decide)
  · exact enum_fields_amended.2.2.1 2 (by decide) (by decide)
  · exact (enum_fields_amended.2.2.2.2.1 (mkRat (-1) 2)).trans (by decide)
  · exact enum_fields_amended.2.2.2.2.2.1 (r"bbks") 1 (by decide)

/-- C2: every log-unit field among F_STAR10, F_ESC10, M_TURN,
ION_Tvir_MIN, L_X and X_RAY_Tvir_MIN, when supplied at construction, is
read back as ten raised to the supplied value — applied exactly once (the
read equals a single `tenPow` of the input, not zero or two applications)
— while every other field is stored unchanged. -/
theorem astro_log_conversion (inh : Bool) (a : AstroArgs) :
    (∀ v, a.F_STAR10 = some v →
      (astroConstruct inh a).F_STAR10_read = .tenPow (.rat v)) ∧
    (∀ v, a.F_ESC10 = some v →
      (astroConstruct inh a).F_ESC10_read = .tenPow (.rat v)) ∧
    (∀ v, a.M_TURN = some v →
      (astroConstruct inh a).M_TURN_read = .tenPow (.rat v)) ∧
    (∀ v, a.ION_Tvir_MIN = some v →
      (astroConstruct inh a).ION_Tvir_MIN_read = .tenPow (.rat v)) ∧
    (∀ v, a.L_X = some v →
      (astroConstruct inh a).L_X_read = .tenPow (.rat v)) ∧
    (∀ v, a.X_RAY_Tvir_MIN = some v →
      (astroConstruct inh a).X_RAY_Tvir_MIN_read = .tenPow (.rat v)) ∧
    (∀ v, a.HII_EFF_FACTOR = some v →
      (astroConstruct inh a).HII_EFF_FACTOR_read = .rat v) ∧
    (∀ v, a.ALPHA_STAR = some v →
      (astroConstruct inh a).ALPHA_STAR_read = .rat v) ∧
    (∀ v, a.ALPHA_ESC = some v →
      (astroConstruct inh a).ALPHA_ESC_read = .rat v) ∧
    (∀ v, a.NU_X_THRESH = some v →
      (astroConstruct inh a).NU_X_THRESH_read = .rat v) ∧
    (∀ v, a.X_RAY_SPEC_INDEX = some v →
      (astroConstruct inh a).X_RAY_SPEC_INDEX_read = .rat v) ∧
    (∀ v, a.t_STAR = some v →
      (astroConstruct inh a).t_STAR_read = .rat v) ∧
    (∀ v, a.N_RSD_STEPS = some v →
      (astroConstruct inh a).N_RSD_STEPS_read = .rat v) ∧
    (∀ v, a.R_BUBBLE_MAX = some v →
      (astroConstruct inh a)._R_BUBBLE_MAX = some v) := by
  refine ⟨?_, ?_, ?_, ?_, ?_, ?_, ?_, ?_, ?_, ?_, ?_, ?_, ?_, ?_⟩ <;>
    intro v hv
  · simp [AstroParams.F_STAR10_read, astroConstruct, hv, convert, logFields]
  · simp [AstroParams.F_ESC10_read, astroConstruct, hv, convert, logFields]
  · simp [AstroParams.M_TURN_read, astroConstruct, hv, convert, logFields]
  · simp [AstroParams.ION_Tvir_MIN_read, astroConstruct, hv, convert,
      logFields]
  · simp [AstroParams.L_X_read, astroConstruct, hv, convert, logFields]
  · simp [AstroParams.X_RAY_Tvir_MIN_read,
      AstroParams.X_RAY_Tvir_MIN_stored, astroConstruct, hv, convert,
      logFields, truthyA]
  · simp [AstroParams.HII_EFF_FACTOR_read, astroConstruct, hv, convert,
      logFields]
  · simp [AstroParams.ALPHA_STAR_read, astroConstruct, hv, convert,
      logFields]
  · simp [AstroParams.ALPHA_ESC_read, astroConstruct, hv, convert,
      logFields]
  · simp [AstroParams.NU_X_THRESH_read, astroConstruct, hv, convert,
      logFields]
  · simp [AstroParams.X_RAY_SPEC_INDEX_read, astroConstruct, hv, convert,
      logFields]
  · simp [AstroParams.t_STAR_read, astroConstruct, hv, convert, logFields]
  · simp [AstroParams.N_RSD_STEPS_read, astroConstruct, hv, convert,
      logFields]
  · simp [astroConstruct, hv]

/-- C2, witnessed at a concrete construction: a supplied M_TURN of 3 reads
back as ten to the 3, a supplied X_RAY_Tvir_MIN of 7 reads back as ten to
the 7, and a supplied NU_X_THRESH of 9 reads back as 9 itself. -/
theorem astro_log_conversion_witness :
    (astroConstruct false
      { M_TURN := some 3, X_RAY_Tvir_MIN := some 7,
        NU_X_THRESH := some 9 }).M_TURN_read = .tenPow (.rat 3) ∧
    (astroConstruct false
      { M_TURN := some 3, X_RAY_Tvir_MIN := some 7,
        NU_X_THRESH := some 9 }).X_RAY_Tvir_MIN_read = .tenPow (.rat 7) ∧
    (astroConstruct false
      { M_TURN := some 3, X_RAY_Tvir_MIN := some 7,
        NU_X_THRESH := some 9 }).NU_X_THRESH_read = .rat 9 := by
  obtain ⟨-, -, h3, -, -, h6, -, -, -, h10, -⟩ :=
    astro_log_conversion false
      { M_TURN := some 3, X_RAY_Tvir_MIN := some 7, NU_X_THRESH := some 9 }
  exact ⟨h3 3 rfl, h6 7 rfl, h10 9 rfl⟩

/-- C3 counterexample: the class documentation designates `_defaults_` as
the documented default of each field, and its `F_STAR10` entry is -1.3,
but a no-argument construction reads `F_STAR10` as ten to the -1.3 (the
log10-to-linear conversion also applies to the default), which differs
from -1.3. -/
theorem defaults_documented_cex :
    astroDefaultsTable .F_STAR10 = some (mkRat (-13) 10) ∧
    (astroConstruct false {}).F_STAR10_read =
      .tenPow (.rat (mkRat (-13) 10)) ∧
    AVal.tenPow (.rat (mkRat (-13) 10)) ≠ AVal.rat (mkRat (-13) 10) := by
  refine ⟨rfl, by decide, by decide⟩

/-- C3 amended: a no-argument construction yields the `_defaults_` value
for every plainly stored field; the derived fields read their documented
derived values (DIM is 4 * HII_DIM = 200, R_BUBBLE_MAX is 15.0 since
INHOMO_RECO defaults to False, X_RAY_Tvir_MIN falls back to ION_Tvir_MIN),
and every log10-unit AstroParams field reads ten to the power of its
default rather than the default itself.  CosmoParams defaults are
astropy's Planck15 values. -/
theorem defaults_construction_amended :
    cosmoConstruct {} =
      { SIGMA_8 := mkRat 82 100, hlittle := mkRat 6774 10000,
        OMm := mkRat 3089 10000, OMb := mkRat 486 10000,
        POWER_INDEX := mkRat 97 100 } ∧
    (userConstruct {}).BOX_LEN = 150 ∧
    (userConstruct {})._DIM = none ∧
    (userConstruct {}).DIM_read = 200 ∧
    (userConstruct {}).HII_DIM = 50 ∧
    (userConstruct {}).USE_FFTW_WISDOM = false ∧
    (userConstruct {}).HMF_read = .ok 1 ∧
    (userConstruct {}).USE_RELATIVE_VELOCITIES = false ∧
    (userConstruct {}).POWER_SPECTRUM_read = .ok (.int 0) ∧
    flagConstruct {} =
      { USE_MASS_DEPENDENT_ZETA := false, SUBCELL_RSD := false,
        INHOMO_RECO := false, USE_TS_FLUCT := false,
        _M_MIN_in_Mass := false, PHOTON_CONS := false } ∧
    (flagConstruct {}).M_MIN_in_Mass_read = false ∧
    (astroConstruct false {}).HII_EFF_FACTOR_read = .rat 30 ∧
    (astroConstruct false {}).F_STAR10_read =
      .tenPow (.rat (mkRat (-13) 10)) ∧
    (astroConstruct false {}).ALPHA_STAR_read = .rat (mkRat 1 2) ∧
    (astroConstruct false {}).F_ESC10_read = .tenPow (.rat (-1)) ∧
    (astroConstruct false {}).ALPHA_ESC_read = .rat (mkRat (-1) 2) ∧
    (astroConstruct false {}).M_TURN_read = .tenPow (.rat (mkRat 87 10)) ∧
    (astroConstruct false {}).R_BUBBLE_MAX_read = .rat 15 ∧
    (astroConstruct false {}).R_BUBBLE_MAX_warns = false ∧
    (astroConstruct false {}).ION_Tvir_MIN_read =
      .tenPow (.rat (mkRat 469897 100000)) ∧
    (astroConstruct false {}).L_X_read = .tenPow (.rat 40) ∧
    (astroConstruct false {}).NU_X_THRESH_read = .rat 500 ∧
    (astroConstruct false {}).X_RAY_SPEC_INDEX_read = .rat 1 ∧
    (astroConstruct false {}).X_RAY_Tvir_MIN_read =
      .tenPow (.rat (mkRat 469897 100000)) ∧
    (astroConstruct false {}).t_STAR_read = .rat (mkRat 1 2) ∧
    (astroConstruct false {}).N_RSD_STEPS_read = .rat 20 := by
  and_intros <;> decide

/-- C4: with USE_MASS_DEPENDENT_ZETA true, reading M_MIN_in_Mass yields
True regardless of the value supplied for it; with USE_MASS_DEPENDENT_ZETA
false, the read yields the supplied (or default False) value. -/
theorem m_min_in_mass_forced (a : FlagArgs) :
    ((flagConstruct a).USE_MASS_DEPENDENT_ZETA = true →
      (flagConstruct a).M_MIN_in_Mass_read = true) ∧
    ((flagConstruct a).USE_MASS_DEPENDENT_ZETA = false →
      (flagConstruct a).M_MIN_in_Mass_read = a.M_MIN_in_Mass.getD false) := by
  constructor <;> intro h <;>
    simp [FlagOptions.M_MIN_in_Mass_read, flagConstruct] at h ⊢ <;>
    simp [h]

/-- C4, witnessed: an explicit M_MIN_in_Mass of False is overridden to
True when USE_MASS_DEPENDENT_ZETA is True; with the flag off, an explicit
True is returned as supplied. -/
theorem m_min_in_mass_forced_witness :
    (flagConstruct
      { USE_MASS_DEPENDENT_ZETA := some true,
        M_MIN_in_Mass := some false }).M_MIN_in_Mass_read = true ∧
    (flagConstruct
      { M_MIN_in_Mass := some true }).M_MIN_in_Mass_read = true := by
  refine ⟨(m_min_in_mass_forced _).1 rfl, ?_⟩
  exact ((m_min_in_mass_forced
    { M_MIN_in_Mass := some true }).2 rfl).trans rfl

/-- C5 counterexample: the claim says an explicitly supplied DIM is
returned on read, but an explicit DIM of 0 is falsy, so the read yields
4 * HII_DIM = 200 instead of the supplied 0. -/
theorem dim_explicit_zero_cex :
    (userConstruct { DIM := some 0 }).DIM_read = 200 ∧ (200 : ℤ) ≠ 0 := by
  refine ⟨by decide, by decide⟩

/-- C5 amended: when DIM is unset its read is 4 times the current
HII_DIM, recomputed at every access (mutating HII_DIM afterwards moves the
read accordingly); an explicitly supplied nonzero DIM is returned as
supplied, while a supplied 0 is falsy and treated as unset. -/
theorem dim_derived_amended :
    (∀ p : UserParams, p._DIM = none →
      ∀ h : ℤ, ({ p with HII_DIM := h } : UserParams).DIM_read = 4 * h) ∧
    (∀ p : UserParams, ∀ n : ℤ, p._DIM = some n → n ≠ 0 →
      p.DIM_read = n) ∧
    (∀ a : UserArgs, a.DIM = none →
      (userConstruct a).DIM_read = 4 * (userConstruct a).HII_DIM) := by
  refine ⟨?_, ?_, ?_⟩
  · intro p hp h
    simp [UserParams.DIM_read, truthyInt, hp]
  · intro p n hp hn
    simp [UserParams.DIM_read, truthyInt, hp, hn]
  · intro a ha
    simp [UserParams.DIM_read, userConstruct, truthyInt, ha]

/-- C5 amended, witnessed: with DIM unset, setting HII_DIM to 7 after
construction makes DIM read 28; an explicit DIM of 300 reads back as
300. -/
theorem dim_derived_amended_witness :
    ({ userConstruct {} with HII_DIM := 7 } : UserParams).DIM_read = 28 ∧
    (userConstruct { DIM := some 300 }).DIM_read = 300 := by
  refine ⟨?_, ?_⟩
  · exact dim_derived_amended.1 (userConstruct {}) rfl 7
  · exact dim_derived_amended.2.1 _ 300 rfl (by decide)

/-- C6 counterexample: re-constructing an AstroParams from the
dictionary-like snapshot of its fields loses the INHOMO_RECO constructor
keyword (which is not an astro field), so an original built with
INHOMO_RECO True and R_BUBBLE_MAX unset reads R_BUBBLE_MAX as 50 while
its reconstruction reads 15. -/
theorem snapshot_roundtrip_cex :
    (astroConstruct false
      ((astroConstruct true {}).snapshot)).R_BUBBLE_MAX_read = .rat 15 ∧
    (astroConstruct true {}).R_BUBBLE_MAX_read = .rat 50 ∧
    AVal.rat 15 ≠ AVal.rat 50 := by
  refine ⟨by decide, by decide, by decide⟩

/-- C6 amended: reconstruction from the snapshot is the identity for
CosmoParams, UserParams and FlagOptions; for AstroParams it is the
identity provided the INHOMO_RECO constructor keyword is re-supplied (in
particular whenever the original had the default INHOMO_RECO False). -/
theorem snapshot_roundtrip_amended :
    (∀ c : CosmoParams, cosmoConstruct c.snapshot = c) ∧
    (∀ p : UserParams, userConstruct p.snapshot = p) ∧
    (∀ f : FlagOptions, flagConstruct f.snapshot = f) ∧
    (∀ p : AstroParams, astroConstruct p.INHOMO_RECO p.snapshot = p) ∧
    (∀ p : AstroParams, p.INHOMO_RECO = false →
      astroConstruct false p.snapshot = p) := by
  refine ⟨fun c => rfl, fun p => rfl, fun f => rfl, fun p => rfl, ?_⟩
  intro p h
  rw [← h]
  rfl

/-- C6 amended, witnessed: a concrete AstroParams with default
INHOMO_RECO reconstructs identically from its snapshot. -/
theorem snapshot_roundtrip_amended_witness :
    astroConstruct false
      ((astroConstruct false { M_TURN := some 3 }).snapshot) =
      astroConstruct false { M_TURN := some 3 } :=
  snapshot_roundtrip_amended.2.2.2.2 _ rfl

/-- C7 counterexample: the claim says any explicit R_BUBBLE_MAX different
from 50 is returned with only a warning, but an explicit 0 (which differs
from 50) is falsy: the read returns the INHOMO_RECO default 50.0, not the
supplied 0, and no warning is logged. -/
theorem r_bubble_explicit_zero_cex :
    (astroConstruct true
      { R_BUBBLE_MAX := some 0 }).R_BUBBLE_MAX_read = .rat 50 ∧
    (astroConstruct true
      { R_BUBBLE_MAX := some 0 }).R_BUBBLE_MAX_warns = false ∧
    AVal.rat 50 ≠ AVal.rat 0 := by
  refine ⟨by decide, by decide, by decide⟩

/-- C7 amended: an explicit nonzero R_BUBBLE_MAX never raises — the read
returns the supplied value, and the warning is logged exactly when
INHOMO_RECO is True and the value differs from 50; an unset (or falsy
explicit 0) R_BUBBLE_MAX reads as 50.0 when INHOMO_RECO is True and 15.0
otherwise, with no warning. -/
theorem r_bubble_max_amended :
    (∀ inh : Bool, ∀ a : AstroArgs, ∀ v : ℚ, a.R_BUBBLE_MAX = some v →
      v ≠ 0 →
      (astroConstruct inh a).R_BUBBLE_MAX_read = .rat v ∧
      (astroConstruct inh a).R_BUBBLE_MAX_warns = (inh && (v != 50))) ∧
    (∀ inh : Bool, ∀ a : AstroArgs,
      a.R_BUBBLE_MAX = none ∨ a.R_BUBBLE_MAX = some 0 →
      (astroConstruct inh a).R_BUBBLE_MAX_read =
        (if inh then .rat 50 else .rat 15) ∧
      (astroConstruct inh a).R_BUBBLE_MAX_warns = false) := by
  constructor
  · intro inh a v hv hn
    constructor <;>
      simp [AstroParams.R_BUBBLE_MAX_read, AstroParams.R_BUBBLE_MAX_warns,
        AstroParams.R_BUBBLE_MAX_pair, astroConstruct, truthyRat, hv, hn]
  · intro inh a hv
    rcases hv with hv | hv <;>
      constructor <;>
      simp [AstroParams.R_BUBBLE_MAX_read, AstroParams.R_BUBBLE_MAX_warns,
        AstroParams.R_BUBBLE_MAX_pair, astroConstruct, truthyRat, hv]

/-- C7 amended, witnessed: an explicit R_BUBBLE_MAX of 30 with
INHOMO_RECO True reads back as 30 with the warning logged; left unset
with INHOMO_RECO False it reads 15. -/
theorem r_bubble_max_amended_witness :
    (astroConstruct true
      { R_BUBBLE_MAX := some 30 }).R_BUBBLE_MAX_read = .rat 30 ∧
    (astroConstruct true
      { R_BUBBLE_MAX := some 30 }).R_BUBBLE_MAX_warns = true ∧
    (astroConstruct false {}).R_BUBBLE_MAX_read = .rat 15 := by
  have h1 := r_bubble_max_amended.1 true { R_BUBBLE_MAX := some 30 } 30
    rfl (by decide)
  have h2 := r_bubble_max_amended.2 false {} (Or.inl rfl)
  exact ⟨h1.1, h1.2.trans (by decide), h2.1.trans (by decide)⟩

/-- C8 counterexample: the documented field set differs from the accepted
option set — the FlagOptions docstring documents `SUBCELL_RSDS`, which the
constructor rejects (only `SUBCELL_RSD` is a `_defaults_` key), and
`USE_FFTW_WISDOM` is accepted by UserParams but documented nowhere in its
docstring. -/
theorem accepted_vs_documented_cex :
    constructKeysOK flagAcceptedKeys [r"SUBCELL_RSDS"] = false ∧
    (r"SUBCELL_RSDS") ∈ flagDocumentedFields ∧
    (r"USE_FFTW_WISDOM") ∈ userAcceptedKeys ∧
    (r"USE_FFTW_WISDOM") ∉ userDocumentedFields := by
  refine ⟨by decide, by decide, by decide, by decide⟩

/-- C8 amended: construction accepts exactly the `_defaults_` key set of
each group (plus INHOMO_RECO for AstroParams) and fails on any key outside
it; that accepted set coincides with the documented field names for
CosmoParams and AstroParams, but for UserParams the accepted set strictly
contains the documented one (`USE_FFTW_WISDOM` is undocumented), and for
FlagOptions the accepted `SUBCELL_RSD` is documented as `SUBCELL_RSDS`. -/
theorem accepted_keys_amended :
    (∀ accepted ks : List String,
      constructKeysOK accepted ks = true ↔ ∀ k ∈ ks, k ∈ accepted) ∧
    sameKeySet cosmoAcceptedKeys cosmoDocumentedFields = true ∧
    sameKeySet astroAcceptedKeys astroDocumentedFields = true ∧
    userDocumentedFields.all
      (fun k => userAcceptedKeys.contains k) = true ∧
    userAcceptedKeys.contains (r"USE_FFTW_WISDOM") = true ∧
    userDocumentedFields.contains (r"USE_FFTW_WISDOM") = false ∧
    flagAcceptedKeys.contains (r"SUBCELL_RSD") = true ∧
    flagDocumentedFields.contains (r"SUBCELL_RSD") = false ∧
    flagDocumentedFields.contains (r"SUBCELL_RSDS") = true ∧
    flagAcceptedKeys.contains (r"SUBCELL_RSDS") = false := by
  refine ⟨?_, by decide, by decide, by decide, by decide, by decide,
    by decide, by decide, by decide, by decide⟩
  intro accepted ks
  simp [constructKeysOK, List.all_eq_true]

/-- C8 amended, witnessed: a key list drawn from the accepted set
constructs successfully, and one containing an unrecognized key fails. -/
theorem accepted_keys_amended_witness :
    constructKeysOK userAcceptedKeys [r"HII_DIM", r"DIM"] = true ∧
    constructKeysOK flagAcceptedKeys [r"SUBCELL_RSDS"] ≠ true := by
  constructor
  · exact (accepted_keys_amended.1 userAcceptedKeys
      [r"HII_DIM", r"DIM"]).mpr (by decide)
  · intro hc
    have := (accepted_keys_amended.1 flagAcceptedKeys
      [r"SUBCELL_RSDS"]).mp hc (r"SUBCELL_RSDS") (by decide)
    revert this
    decide

/-- C9: with USE_RELATIVE_VELOCITIES True, reading POWER_SPECTRUM returns
5 no matter what was supplied for it, and never raises — the getter
returns before any validation, so even an unrecognized string or
out-of-range integer produces 5. -/
theorem power_spectrum_relvel_override (p : UserParams)
    (h : p.USE_RELATIVE_VELOCITIES = true) :
    p.POWER_SPECTRUM_read = .ok (.int 5) := by
  simp [UserParams.POWER_SPECTRUM_read, POWER_SPECTRUM_get, h]

/-- C9, witnessed: an unrecognized string and an out-of-range integer
supplied for POWER_SPECTRUM both read as 5 (no error) when
USE_RELATIVE_VELOCITIES is True. -/
theorem power_spectrum_relvel_override_witness :
    (userConstruct
      { USE_RELATIVE_VELOCITIES := some true,
        POWER_SPECTRUM := some (.str (r"nonsense")) }).POWER_SPECTRUM_read =
      .ok (.int 5) ∧
    (userConstruct
      { USE_RELATIVE_VELOCITIES := some true,
        POWER_SPECTRUM := some (.int 99) }).POWER_SPECTRUM_read =
      .ok (.int 5) :=
  ⟨power_spectrum_relvel_override _ rfl,
    power_spectrum_relvel_override _ rfl⟩

/-- C10: an explicit 0 for UserParams.DIM or AstroParams.R_BUBBLE_MAX is
falsy and treated as unset — DIM reads 4 * HII_DIM, and R_BUBBLE_MAX
reads the INHOMO_RECO-dependent default (50.0 or 15.0). -/
theorem falsy_explicit_treated_unset :
    (∀ a : UserArgs, a.DIM = some 0 →
      (userConstruct a).DIM_read = 4 * (userConstruct a).HII_DIM) ∧
    (∀ inh : Bool, ∀ a : AstroArgs, a.R_BUBBLE_MAX = some 0 →
      (astroConstruct inh a).R_BUBBLE_MAX_read =
        (if inh then .rat 50 else .rat 15)) := by
  constructor
  · intro a ha
    simp [UserParams.DIM_read, userConstruct, truthyInt, ha]
  · intro inh a ha
    simp [AstroParams.R_BUBBLE_MAX_read, AstroParams.R_BUBBLE_MAX_pair,
      astroConstruct, truthyRat, ha]

/-- C10, witnessed: explicit DIM = 0 with HII_DIM = 30 reads 120; explicit
R_BUBBLE_MAX = 0 with INHOMO_RECO True reads 50. -/
theorem falsy_explicit_treated_unset_witness :
    (userConstruct { DIM := some 0, HII_DIM := some 30 }).DIM_read = 120 ∧
    (astroConstruct true
      { R_BUBBLE_MAX := some 0 }).R_BUBBLE_MAX_read = .rat 50 := by
  have h1 := falsy_explicit_treated_unset.1
    { DIM := some 0, HII_DIM := some 30 } rfl
  have h2 := falsy_explicit_treated_unset.2 true { R_BUBBLE_MAX := some 0 }
    rfl
  exact ⟨h1.trans (by decide), h2.trans (by decide)⟩

end Inputs21
